import Mathlib

/-!
Verification development for the qualyspy VMDR module: a shallow embedding of
`vmdr/data_classes/detection.py` and `vmdr/reports.py`, together with theorems
settling the specification claims about record normalization, comparison
semantics, and the report-dispatch layer.

Parsed-XML values (nested mappings with the `@attr` / `#text` convention),
dataclass field contents and request-parameter bags are all modelled by the
dynamic value type `PyVal`; Python exceptions are modelled by `PyErr`, and
fallible Python code by `Except PyErr`.
-/

/-- Dynamic (Python-like) value: the payloads that flow through the library.
`datetime` carries the ISO string it was parsed from; `qds` and `qdsFactor`
are the constructed QDS / QDSFactor record objects (their class bodies live
outside the embedded files; the spec describes them as a severity/score pair
and a name/value pair respectively). -/
inductive PyVal where
  | none : PyVal
  | bool : Bool → PyVal
  | int : Int → PyVal
  | str : String → PyVal
  | datetime : String → PyVal
  | qds (severity : PyVal) (score : Int) : PyVal
  | qdsFactor (name value : PyVal) : PyVal
  | list : List PyVal → PyVal
  | dict : List (String × PyVal) → PyVal
deriving Repr

/-- Python exception classes raised by the embedded code. `qualysAPIError` is
the typed vendor soft-failure error from the exceptions module (modelled from
the spec: a typed API error carrying the vendor message verbatim). -/
inductive PyErr where
  | typeError : String → PyErr
  | valueError : String → PyErr
  | keyError : String → PyErr
  | notImplementedError : String → PyErr
  | qualysAPIError : PyVal → PyErr
deriving Repr

/-- First-occurrence lookup in an association list (Python dict read). -/
def lookupD (d : List (String × PyVal)) (k : String) : Option PyVal :=
  match d with
  | [] => Option.none
  | (k1, v) :: rest => if k1 = k then some v else lookupD rest k

/-- Membership test on keys: Python `k in d` for a dict. -/
def hasKeyD (d : List (String × PyVal)) (k : String) : Bool :=
  match d with
  | [] => false
  | (k1, _) :: rest => if k1 = k then true else hasKeyD rest k

/-- Python dict assignment `d[k] = v`: replace the existing entry in place, or
append a new entry at the end (insertion order preserved). -/
def setItemD (d : List (String × PyVal)) (k : String) (v : PyVal) : List (String × PyVal) :=
  match d with
  | [] => [(k, v)]
  | (k1, v1) :: rest => if k1 = k then (k, v) :: rest else (k1, v1) :: setItemD rest k v

/-- Subscripting `x[k]` with a string key: dict lookup raising KeyError on a
missing key; every non-dict value raises TypeError (the constructed `qds` /
`qdsFactor` record objects are not subscriptable). -/
def pyGet (x : PyVal) (k : String) : Except PyErr PyVal :=
  match x with
  | .dict d =>
    match lookupD d k with
    | some v => .ok v
    | _ => .error (.keyError k)
  | _ => .error (.typeError ("value is not subscriptable with key " ++ k))

/-- Python truthiness: `bool(x)` for the values in play. Empty string, zero,
None, empty list and empty dict are falsy; constructed record objects define
no truth protocol of their own and are truthy. -/
def pyTruthy (x : PyVal) : Bool :=
  match x with
  | .none => false
  | .bool b => b
  | .int n => decide (n ≠ 0)
  | .str s => decide (s ≠ "")
  | .datetime _ => true
  | .qds _ _ => true
  | .qdsFactor _ _ => true
  | .list l => !l.isEmpty
  | .dict d => !d.isEmpty

/-- ASCII decimal digit test. -/
def isDigitChar (c : Char) : Bool :=
  Nat.ble 48 c.toNat && Nat.ble c.toNat 57

/-- Accumulate a digit list into a natural number, most significant first. -/
def digitsToNat (cs : List Char) (acc : Nat) : Nat :=
  match cs with
  | [] => acc
  | c :: rest => digitsToNat rest (acc * 10 + (c.toNat - 48))

/-- Model of base-10 `int(s)` on a string: surrounding ASCII spaces are
stripped, an optional sign is allowed, and the remainder must be a nonempty
digit run; anything else is rejected (ValueError in the caller). -/
def pyStrToInt (s : String) : Option Int :=
  let core := ((s.data.dropWhile (fun c => c = ' ')).reverse.dropWhile (fun c => c = ' ')).reverse
  match core with
  | '-' :: ds =>
    if ds ≠ [] && ds.all isDigitChar then some (-(digitsToNat ds 0 : Int)) else Option.none
  | '+' :: ds =>
    if ds ≠ [] && ds.all isDigitChar then some ((digitsToNat ds 0 : Int)) else Option.none
  | ds =>
    if ds ≠ [] && ds.all isDigitChar then some ((digitsToNat ds 0 : Int)) else Option.none

/-- The `int(x)` builtin as used by the embedded code: ints are returned as
is, bools are ints in Python, numeric strings parse in base 10, and every
other value raises TypeError. -/
def pyIntOf (x : PyVal) : Except PyErr Int :=
  match x with
  | .int n => .ok n
  | .bool b => .ok (cond b 1 0)
  | .str s =>
    match pyStrToInt s with
    | some n => .ok n
    | _ => .error (.valueError ("invalid literal for int() with base 10: " ++ s))
  | _ => .error (.typeError "int() argument must be a string or a number")

mutual

/-- Python `==` on the values in play: None equals only None, bools compare
numerically with ints, strings and datetimes by value, record objects and
containers componentwise, and values of unrelated types are unequal. Dict
equality is modelled on the ordered entry list (parsed XML trees preserve
document order). -/
def pyEq : PyVal → PyVal → Bool
  | .none, .none => true
  | .bool a, .bool b => a == b
  | .bool a, .int b => (cond a 1 0 : Int) == b
  | .int a, .bool b => a == (cond b 1 0 : Int)
  | .int a, .int b => a == b
  | .str a, .str b => a == b
  | .datetime a, .datetime b => a == b
  | .qds a n, .qds b m => pyEq a b && n == m
  | .qdsFactor a x, .qdsFactor b y => pyEq a b && pyEq x y
  | .list a, .list b => pyEqList a b
  | .dict a, .dict b => pyEqDict a b
  | _, _ => false

/-- Elementwise `==` on lists. -/
def pyEqList : List PyVal → List PyVal → Bool
  | [], [] => true
  | x :: xs, y :: ys => pyEq x y && pyEqList xs ys
  | _, _ => false

/-- Entrywise `==` on dict entry lists. -/
def pyEqDict : List (String × PyVal) → List (String × PyVal) → Bool
  | [], [] => true
  | (k, x) :: xs, (l, y) :: ys => k == l && pyEq x y && pyEqDict xs ys
  | _, _ => false

end

/-- Lexicographic `<` on strings by code point, as Python compares str. -/
def strLtB (a b : String) : Bool :=
  strLtAux a.data b.data
where
  strLtAux : List Char → List Char → Bool
  | [], [] => false
  | [], _ :: _ => true
  | _ :: _, [] => false
  | c :: cs, d :: ds =>
    if c.toNat = d.toNat then strLtAux cs ds
    else Nat.blt c.toNat d.toNat

/-- Numeric view used by Python comparisons: bools count as 0 / 1. -/
def pyNum (x : PyVal) : Option Int :=
  match x with
  | .int n => some n
  | .bool b => some (cond b 1 0)
  | _ => Option.none

/-- Python `<` on the scalar values that occur in Detection compare fields:
numeric values compare numerically, strings and datetimes lexicographically,
and any other pairing raises TypeError (as Python does across types). -/
def pyLt (a b : PyVal) : Except PyErr Bool :=
  match pyNum a, pyNum b with
  | some x, some y => .ok (decide (x < y))
  | _, _ =>
    match a, b with
    | .str x, .str y => .ok (strLtB x y)
    | .datetime x, .datetime y => .ok (strLtB x y)
    | _, _ => .error (.typeError "unsupported operand types for comparison")

/-- Python tuple `<`: first unequal position decides; equal tuples of equal
length are not less. -/
def pyTupleLt : List PyVal → List PyVal → Except PyErr Bool
  | [], [] => .ok false
  | [], _ :: _ => .ok true
  | _ :: _, [] => .ok false
  | x :: xs, y :: ys => if pyEq x y then pyTupleLt xs ys else pyLt x y

/-- State machine stripping markup tags: characters between an unclosed
opening angle bracket and the matching closing one are dropped, everything
else is kept. Models `BeautifulSoup(s, "html.parser").get_text()` on the
simple tag-bearing strings Detection RESULTS fields carry. -/
def stripTagsAux (inTag : Bool) (cs : List Char) : List Char :=
  match cs with
  | [] => []
  | c :: rest =>
    if c = '<' then stripTagsAux true rest
    else if inTag then
      (if c = '>' then stripTagsAux false rest else stripTagsAux true rest)
    else c :: stripTagsAux false rest

/-- Strip markup from a string, keeping only visible text. -/
def stripTags (s : String) : String :=
  ⟨stripTagsAux false s.data⟩

/-- Model of `BeautifulSoup(x, "html.parser").get_text()` as applied by the
Detection normalizer: a string has its markup stripped; any non-string
argument (in particular None) raises TypeError, since bs4 measures the length
of its markup argument. -/
def bs4GetText (x : PyVal) : Except PyErr PyVal :=
  match x with
  | .str s => .ok (.str (stripTags s))
  | .none => .error (.typeError "object of type NoneType has no len()")
  | _ => .error (.typeError "markup argument has no len()")

/-- Shape check for ISO-8601 date-times as accepted by
`datetime.fromisoformat`: four digit year, dash, two digit month, dash, two
digit day, then an optional time part. The time part is not validated
further; no claim exercises a malformed time suffix. -/
def isoShapeOk (s : String) : Bool :=
  match s.data with
  | y1 :: y2 :: y3 :: y4 :: h1 :: m1 :: m2 :: h2 :: d1 :: d2 :: _ =>
    [y1, y2, y3, y4, m1, m2, d1, d2].all isDigitChar && h1 = '-' && h2 = '-'
  | _ => false

/-- Model of `datetime.fromisoformat(s)`: a well-shaped ISO string becomes a
datetime value (carrying its text); anything else raises ValueError. -/
def fromIsoFormat (s : String) : Except PyErr PyVal :=
  if isoShapeOk s then .ok (.datetime s)
  else .error (.valueError ("Invalid isoformat string: " ++ s))

/-- The Detection dataclass of `vmdr/data_classes/detection.py`: one field
per declared dataclass field, in declaration order, each holding a dynamic
value exactly as Python stores it. -/
structure Detection where
  UNIQUE_VULN_ID : PyVal
  QID : PyVal
  TYPE : PyVal
  SEVERITY : PyVal
  STATUS : PyVal
  SSL : PyVal
  RESULTS : PyVal
  FIRST_FOUND_DATETIME : PyVal
  LAST_FOUND_DATETIME : PyVal
  QDS : PyVal
  QDS_FACTORS : PyVal
  TIMES_FOUND : PyVal
  LAST_TEST_DATETIME : PyVal
  LAST_UPDATE_DATETIME : PyVal
  IS_IGNORED : PyVal
  IS_DISABLED : PyVal
  LAST_PROCESSED_DATETIME : PyVal
  LAST_FIXED_DATETIME : PyVal
  PORT : PyVal
  PROTOCOL : PyVal
  FQDN : PyVal
deriving Repr

/-- String-value test, used to phrase the guards of the datetime loop. -/
def PyVal.isStr : PyVal → Bool
  | .str _ => true
  | _ => false

/-- Bool-value test (Python `isinstance(x, bool)`). -/
def PyVal.isBool : PyVal → Bool
  | .bool _ => true
  | _ => false

/-- None test. -/
def PyVal.isNone : PyVal → Bool
  | .none => true
  | _ => false

/-- List-value test (Python `isinstance(x, list)`). -/
def PyVal.isList : PyVal → Bool
  | .list _ => true
  | _ => false

/-- Python `isinstance(x, int)`: true for ints and for bools, which are a
subtype of int in Python. -/
def PyVal.isIntInstance : PyVal → Bool
  | .int _ => true
  | .bool _ => true
  | _ => false

/-- Per-field body of the DATETIME_FIELDS loop: a string value is parsed with
`datetime.fromisoformat`; every other value (None, or an already converted
datetime) is left untouched. -/
def dtCoerceVal (v : PyVal) : Except PyErr PyVal :=
  match v with
  | .str s => fromIsoFormat s
  | _ => .ok v

/-- Per-field body of the BOOL_FIELDS loop: values that are neither bool nor
None are replaced by their truthiness; bools and None pass through. -/
def boolCoerceVal (v : PyVal) : PyVal :=
  if !v.isBool && !v.isNone then .bool (pyTruthy v) else v

/-- Per-field body of the INT_FIELDS loop: values that are neither int
instances (ints or bools) nor None are converted with `int(...)`; int
instances and None pass through. -/
def intCoerceVal (v : PyVal) : Except PyErr PyVal :=
  if !v.isIntInstance && !v.isNone then do
    let n ← pyIntOf v
    pure (.int n)
  else .ok v

/-- The DATETIME_FIELDS loop of `Detection.__post_init__`, applied to the six
declared datetime fields. -/
def coerceDatetimes (d : Detection) : Except PyErr Detection := do
  let f1 ← dtCoerceVal d.FIRST_FOUND_DATETIME
  let f2 ← dtCoerceVal d.LAST_FOUND_DATETIME
  let f3 ← dtCoerceVal d.LAST_TEST_DATETIME
  let f4 ← dtCoerceVal d.LAST_UPDATE_DATETIME
  let f5 ← dtCoerceVal d.LAST_PROCESSED_DATETIME
  let f6 ← dtCoerceVal d.LAST_FIXED_DATETIME
  pure { d with
    FIRST_FOUND_DATETIME := f1, LAST_FOUND_DATETIME := f2,
    LAST_TEST_DATETIME := f3, LAST_UPDATE_DATETIME := f4,
    LAST_PROCESSED_DATETIME := f5, LAST_FIXED_DATETIME := f6 }

/-- The HTML_FIELDS loop of `Detection.__post_init__`: the markup stripper is
applied to RESULTS unconditionally — the loop carries no None or type guard,
unlike the other three coercion loops. -/
def coerceHtml (d : Detection) : Except PyErr Detection := do
  let r ← bs4GetText d.RESULTS
  pure { d with RESULTS := r }

/-- The BOOL_FIELDS loop of `Detection.__post_init__` over IS_IGNORED,
IS_DISABLED and SSL. -/
def coerceBools (d : Detection) : Detection :=
  { d with
    IS_IGNORED := boolCoerceVal d.IS_IGNORED,
    IS_DISABLED := boolCoerceVal d.IS_DISABLED,
    SSL := boolCoerceVal d.SSL }

/-- The INT_FIELDS loop of `Detection.__post_init__` over UNIQUE_VULN_ID,
QID, SEVERITY, TIMES_FOUND and PORT. -/
def coerceInts (d : Detection) : Except PyErr Detection := do
  let v1 ← intCoerceVal d.UNIQUE_VULN_ID
  let v2 ← intCoerceVal d.QID
  let v3 ← intCoerceVal d.SEVERITY
  let v4 ← intCoerceVal d.TIMES_FOUND
  let v5 ← intCoerceVal d.PORT
  pure { d with
    UNIQUE_VULN_ID := v1, QID := v2, SEVERITY := v3,
    TIMES_FOUND := v4, PORT := v5 }

/-- The QDS conversion of `Detection.__post_init__` acting on the field
value: a truthy value is subscripted for `@severity` and `#text` and rebuilt
as a QDS record with an int score; a falsy value is left untouched. -/
def convertQDSNode (v : PyVal) : Except PyErr PyVal :=
  if pyTruthy v then do
    let sev ← pyGet v "@severity"
    let txt ← pyGet v "#text"
    let score ← pyIntOf txt
    pure (.qds sev score)
  else pure v

/-- The QDS_FACTORS conversion of `Detection.__post_init__` acting on the
field value: a truthy node is subscripted for `QDS_FACTOR`; a list inside is
converted elementwise to QDSFactor records, a single non-list inner value is
converted alone and wrapped in a one-element list; a falsy node is left
untouched. -/
def convertFactorsNode (v : PyVal) : Except PyErr PyVal :=
  if pyTruthy v then do
    let inner ← pyGet v "QDS_FACTOR"
    match inner with
    | .list fs => do
      let fs2 ← fs.mapM (fun f => do
        let n ← pyGet f "@name"
        let t ← pyGet f "#text"
        pure (PyVal.qdsFactor n t))
      pure (PyVal.list fs2)
    | f => do
      let n ← pyGet f "@name"
      let t ← pyGet f "#text"
      pure (PyVal.list [PyVal.qdsFactor n t])
  else pure v

/-- The QDS step of `__post_init__` on the record. -/
def coerceQDS (d : Detection) : Except PyErr Detection := do
  let q ← convertQDSNode d.QDS
  pure { d with QDS := q }

/-- The QDS_FACTORS step of `__post_init__` on the record. -/
def coerceQDSFactors (d : Detection) : Except PyErr Detection := do
  let q ← convertFactorsNode d.QDS_FACTORS
  pure { d with QDS_FACTORS := q }

/-- Full `Detection.__post_init__`: datetime parsing, markup stripping,
bool coercion, int coercion, QDS conversion and QDS_FACTORS conversion, in
the order the source performs them. -/
def Detection.postInit (d : Detection) : Except PyErr Detection := do
  let d1 ← coerceDatetimes d
  let d2 ← coerceHtml d1
  let d3 := coerceBools d2
  let d4 ← coerceInts d3
  let d5 ← coerceQDS d4
  coerceQDSFactors d5

/-- Declared Detection field names, in dataclass declaration order. -/
def detectionFieldNames : List String :=
  ["UNIQUE_VULN_ID", "QID", "TYPE", "SEVERITY", "STATUS", "SSL", "RESULTS",
   "FIRST_FOUND_DATETIME", "LAST_FOUND_DATETIME", "QDS", "QDS_FACTORS",
   "TIMES_FOUND", "LAST_TEST_DATETIME", "LAST_UPDATE_DATETIME", "IS_IGNORED",
   "IS_DISABLED", "LAST_PROCESSED_DATETIME", "LAST_FIXED_DATETIME", "PORT",
   "PROTOCOL", "FQDN"]

/-- Keyword binding of an argument with no declared default: absence raises
TypeError, as the generated dataclass `__init__` does for a missing required
positional argument. -/
def getReqArg (kw : List (String × PyVal)) (k : String) : Except PyErr PyVal :=
  match lookupD kw k with
  | some v => .ok v
  | _ => .error (.typeError ("Detection __init__ missing required argument: " ++ k))

/-- Keyword binding of an argument with a declared default. -/
def getOptArg (kw : List (String × PyVal)) (k : String) (dflt : PyVal) : PyVal :=
  match lookupD kw k with
  | some v => v
  | _ => dflt

/-- Keyword application `Detection(**kw)` before `__post_init__` runs: every
supplied key must be a declared field (otherwise TypeError for an unexpected
keyword), the five fields without defaults must be present, and the remaining
fields take their declared defaults (False for SSL, the empty string for
RESULTS, 0 for TIMES_FOUND, False for the two flag fields, None elsewhere). -/
def Detection.fromKwargs (kw : List (String × PyVal)) : Except PyErr Detection :=
  if kw.all (fun p => detectionFieldNames.contains p.1) then do
    let uvi ← getReqArg kw "UNIQUE_VULN_ID"
    let qid ← getReqArg kw "QID"
    let ty ← getReqArg kw "TYPE"
    let sev ← getReqArg kw "SEVERITY"
    let st ← getReqArg kw "STATUS"
    pure {
      UNIQUE_VULN_ID := uvi, QID := qid, TYPE := ty, SEVERITY := sev,
      STATUS := st,
      SSL := getOptArg kw "SSL" (.bool false),
      RESULTS := getOptArg kw "RESULTS" (.str ""),
      FIRST_FOUND_DATETIME := getOptArg kw "FIRST_FOUND_DATETIME" .none,
      LAST_FOUND_DATETIME := getOptArg kw "LAST_FOUND_DATETIME" .none,
      QDS := getOptArg kw "QDS" .none,
      QDS_FACTORS := getOptArg kw "QDS_FACTORS" .none,
      TIMES_FOUND := getOptArg kw "TIMES_FOUND" (.int 0),
      LAST_TEST_DATETIME := getOptArg kw "LAST_TEST_DATETIME" .none,
      LAST_UPDATE_DATETIME := getOptArg kw "LAST_UPDATE_DATETIME" .none,
      IS_IGNORED := getOptArg kw "IS_IGNORED" (.bool false),
      IS_DISABLED := getOptArg kw "IS_DISABLED" (.bool false),
      LAST_PROCESSED_DATETIME := getOptArg kw "LAST_PROCESSED_DATETIME" .none,
      LAST_FIXED_DATETIME := getOptArg kw "LAST_FIXED_DATETIME" .none,
      PORT := getOptArg kw "PORT" .none,
      PROTOCOL := getOptArg kw "PROTOCOL" .none,
      FQDN := getOptArg kw "FQDN" .none }
  else .error (.typeError "Detection __init__ got an unexpected keyword argument")

/-- Full construction `Detection(**kw)`: keyword binding followed by
`__post_init__`. -/
def Detection.init (kw : List (String × PyVal)) : Except PyErr Detection :=
  Detection.fromKwargs kw >>= Detection.postInit

/-- The required-key set checked by `Detection.from_dict`. Note it does not
include UNIQUE_VULN_ID even though that dataclass field has no default. -/
def fromDictRequiredKeys : List String :=
  ["QID", "SEVERITY", "STATUS", "TYPE"]

/-- Message of the ValueError raised by `Detection.from_dict` (the source
renders the Python set literal of the four required keys). -/
def fromDictErrMsg : String :=
  "Dictionary must contain the following keys: QID, SEVERITY, STATUS, TYPE"

/-- The `Detection.from_dict` classmethod: if any of QID, SEVERITY, STATUS or
TYPE is missing from the mapping, raise ValueError with the required-key
message; otherwise call the constructor on the mapping as keyword
arguments. -/
def Detection.from_dict (data : List (String × PyVal)) : Except PyErr Detection :=
  if fromDictRequiredKeys.all (hasKeyD data) then Detection.init data
  else .error (.valueError fromDictErrMsg)

/-- The `Detection.to_dict` method: all 21 fields, in the order the source
lists them. -/
def Detection.to_dict (d : Detection) : List (String × PyVal) :=
  [("UNIQUE_VULN_ID", d.UNIQUE_VULN_ID), ("QID", d.QID), ("TYPE", d.TYPE),
   ("SEVERITY", d.SEVERITY), ("SSL", d.SSL), ("RESULTS", d.RESULTS),
   ("STATUS", d.STATUS),
   ("FIRST_FOUND_DATETIME", d.FIRST_FOUND_DATETIME),
   ("LAST_FOUND_DATETIME", d.LAST_FOUND_DATETIME),
   ("TIMES_FOUND", d.TIMES_FOUND),
   ("LAST_TEST_DATETIME", d.LAST_TEST_DATETIME),
   ("LAST_UPDATE_DATETIME", d.LAST_UPDATE_DATETIME),
   ("IS_IGNORED", d.IS_IGNORED), ("IS_DISABLED", d.IS_DISABLED),
   ("LAST_PROCESSED_DATETIME", d.LAST_PROCESSED_DATETIME),
   ("LAST_FIXED_DATETIME", d.LAST_FIXED_DATETIME),
   ("QDS", d.QDS), ("QDS_FACTORS", d.QDS_FACTORS),
   ("PORT", d.PORT), ("PROTOCOL", d.PROTOCOL), ("FQDN", d.FQDN)]

/-- The `Detection.copy` method: the source re-invokes the constructor
passing every field by keyword except FQDN, which therefore takes its
declared default None, and `__post_init__` runs again on the copy. -/
def Detection.copy (d : Detection) : Except PyErr Detection :=
  Detection.postInit { d with FQDN := PyVal.none }

/-- The comparison key generated by `@dataclass(order=True)`: the fields not
marked `compare=False`, in declaration order — QID, TYPE and SEVERITY.
UNIQUE_VULN_ID, STATUS and every later field carry `compare=False`. -/
def Detection.cmpKey (d : Detection) : List PyVal :=
  [d.QID, d.TYPE, d.SEVERITY]

/-- Dataclass-generated equality: tuple equality of the comparison keys. -/
def Detection.pyEqDet (a b : Detection) : Bool :=
  pyEqList (Detection.cmpKey a) (Detection.cmpKey b)

/-- Dataclass-generated strict ordering: tuple `<` on the comparison keys. -/
def Detection.pyLtDet (a b : Detection) : Except PyErr Bool :=
  pyTupleLt (Detection.cmpKey a) (Detection.cmpKey b)

/-- Names of the fields on which two Detection records disagree (by Python
`==` on the `to_dict` views, which carry all 21 fields). -/
def Detection.diffFields (a b : Detection) : List String :=
  ((Detection.to_dict a).zip (Detection.to_dict b)).filterMap
    (fun pq => if pyEq pq.1.2 pq.2.2 then Option.none else some pq.1.1)

/-- One outgoing transport call as assembled by the dispatch layer: the
(module, endpoint) pair, the parameter bag placed either as query parameters
or as body payload, and the fixed SDK headers. The transport itself is an
external collaborator. -/
structure ApiRequest where
  module : String
  endpoint : String
  params : Option (List (String × PyVal))
  payload : Option (List (String × PyVal))
  headers : List (String × String)
deriving Repr

/-- The fixed headers every report call sends. -/
def sdkHeaders : List (String × String) :=
  [("X-Requested-With", "qualyspy SDK")]

/-- The `manage_reports` backend of `vmdr/reports.py`: the caller kwargs are
augmented with `action` and with `echo_request = False` (both dict
assignments, overriding any caller-supplied value), then the action selects
the call: `list` goes to the vmdr `get_report_list` endpoint with the bag as
query parameters, `launch` goes to the vmdr `launch_report` endpoint with the
bag as body payload, and every other action raises NotImplementedError. The
Python `match` over string literals is an equality chain. -/
def manage_reports (action : String) (kwargs : List (String × PyVal)) :
    Except PyErr ApiRequest :=
  let kw := setItemD (setItemD kwargs "action" (.str action)) "echo_request" (.bool false)
  if action = "list" then
    .ok { module := "vmdr", endpoint := "get_report_list",
          params := some kw, payload := Option.none, headers := sdkHeaders }
  else if action = "launch" then
    .ok { module := "vmdr", endpoint := "launch_report",
          params := Option.none, payload := some kw, headers := sdkHeaders }
  else
    .error (.notImplementedError ("Action " ++ action ++ " is not implemented yet."))

/-- Request assembly of `launch_report`: `template_id` is set into the caller
kwargs and the whole bag goes through `manage_reports` with action
`launch`. -/
def launch_report_request (template_id : PyVal) (kwargs : List (String × PyVal)) :
    Except PyErr ApiRequest :=
  manage_reports "launch" (setItemD kwargs "template_id" template_id)

/-- Modelled from the spec: the VMDRReport record type lives in a data-class
module that is not among the embedded files; the spec describes records as
constructed from one parsed mapping. The construction is modelled as
accepting any mapping (the spec names no required report field) and failing
on a non-mapping. -/
structure VMDRReport where
  fields : List (String × PyVal)
deriving Repr

/-- Modelled from the spec: `VMDRReport.from_dict` wraps one parsed mapping. -/
def VMDRReport.from_dict (v : PyVal) : Except PyErr VMDRReport :=
  match v with
  | .dict m => .ok { fields := m }
  | _ => .error (.typeError "VMDRReport.from_dict expects a mapping")

/-- Modelled from the spec: the ReportTemplate record type, like VMDRReport,
lives outside the embedded files and is constructed from one parsed
mapping. -/
structure ReportTemplate where
  fields : List (String × PyVal)
deriving Repr

/-- Modelled from the spec: `ReportTemplate.from_dict` wraps one parsed
mapping. -/
def ReportTemplate.from_dict (v : PyVal) : Except PyErr ReportTemplate :=
  match v with
  | .dict m => .ok { fields := m }
  | _ => .error (.typeError "ReportTemplate.from_dict expects a mapping")

/-- Iterate the result node of a list operation: the source loops
`for x in xs` over the node and feeds each element to the record
constructor. A non-list node at this point is a type error (a Python string
would be iterated per character, each character then failing in the record
constructor, so the collapsed outcome is an error either way). -/
def buildRecords (α : Type) (fromDict : PyVal → Except PyErr α) (v : PyVal) :
    Except PyErr (List α) :=
  match v with
  | .list xs => xs.mapM fromDict
  | _ => .error (.typeError "result node is not iterable into records")

/-- Response interpretation of `get_report_list` (after `manage_reports` and
the generic XML parse): the mapping is subscripted down
REPORT_LIST_OUTPUT → RESPONSE → REPORT_LIST → REPORT with no envelope check
of any kind, a bare single report mapping is wrapped into a one-element
list, and each element becomes a VMDRReport. -/
def get_report_list_parse (data : PyVal) : Except PyErr (List VMDRReport) := do
  let rlo ← pyGet data "REPORT_LIST_OUTPUT"
  let resp ← pyGet rlo "RESPONSE"
  let rl ← pyGet resp "REPORT_LIST"
  let reports ← pyGet rl "REPORT"
  let reports := match reports with
    | .dict m => PyVal.list [.dict m]
    | r => r
  buildRecords VMDRReport VMDRReport.from_dict reports

/-- Response interpretation of `get_template_list`: a SIMPLE_RETURN key in
the parsed mapping means the vendor soft-failure envelope, whose
RESPONSE → TEXT message is raised as QualysAPIError; otherwise the mapping is
subscripted down REPORT_TEMPLATE_LIST → REPORT_TEMPLATE, a bare single
template mapping is wrapped into a one-element list, and each element becomes
a ReportTemplate. -/
def get_template_list_parse (data : PyVal) : Except PyErr (List ReportTemplate) :=
  match data with
  | .dict d =>
    if hasKeyD d "SIMPLE_RETURN" then do
      let sr ← pyGet data "SIMPLE_RETURN"
      let resp ← pyGet sr "RESPONSE"
      let txt ← pyGet resp "TEXT"
      .error (.qualysAPIError txt)
    else do
      let rtl ← pyGet data "REPORT_TEMPLATE_LIST"
      let templates ← pyGet rtl "REPORT_TEMPLATE"
      let templates := match templates with
        | .dict m => PyVal.list [.dict m]
        | t => t
      buildRecords ReportTemplate ReportTemplate.from_dict templates
  | _ => .error (.typeError "parsed response is not a mapping")

/-- Response interpretation of `launch_report`: the new report id is read
from SIMPLE_RETURN → RESPONSE → ITEM_LIST → ITEM → VALUE and converted with
`int(...)`; if that chain fails with a KeyError the vendor message at
SIMPLE_RETURN → RESPONSE → TEXT is raised as QualysAPIError instead. Errors
other than KeyError (including a ValueError from `int(...)`) propagate, as
the source only catches KeyError. -/
def launch_report_parse (data : PyVal) : Except PyErr Int :=
  let attempt : Except PyErr Int := do
    let sr ← pyGet data "SIMPLE_RETURN"
    let resp ← pyGet sr "RESPONSE"
    let il ← pyGet resp "ITEM_LIST"
    let item ← pyGet il "ITEM"
    let v ← pyGet item "VALUE"
    pyIntOf v
  match attempt with
  | .ok n => .ok n
  | .error (.keyError _) => do
    let sr ← pyGet data "SIMPLE_RETURN"
    let resp ← pyGet sr "RESPONSE"
    let txt ← pyGet resp "TEXT"
    .error (.qualysAPIError txt)
  | .error e => .error e

/-- The parsed form of a response that carries only the generic
SIMPLE_RETURN envelope with a message text and no resource payload. -/
def simpleReturnEnv (t : PyVal) : PyVal :=
  .dict [("SIMPLE_RETURN", .dict [("RESPONSE", .dict [("TEXT", t)])])]

/-- The parsed form of a successful report-list response whose REPORT node
holds the given value. -/
def reportListEnv (r : PyVal) : PyVal :=
  .dict [("REPORT_LIST_OUTPUT", .dict [("RESPONSE", .dict
    [("REPORT_LIST", .dict [("REPORT", r)])])])]

/-- A string-valued datetime field is parsed; any other value is left
untouched by the datetime loop. -/
theorem dtCoerceVal_of_not_str (v : PyVal) (h : v.isStr = false) :
    dtCoerceVal v = .ok v := by
  cases v <;> simp_all [dtCoerceVal, PyVal.isStr]

/-- The datetime loop is the identity on a record none of whose six datetime
fields holds a raw string. -/
theorem coerceDatetimes_id (d : Detection)
    (h1 : d.FIRST_FOUND_DATETIME.isStr = false)
    (h2 : d.LAST_FOUND_DATETIME.isStr = false)
    (h3 : d.LAST_TEST_DATETIME.isStr = false)
    (h4 : d.LAST_UPDATE_DATETIME.isStr = false)
    (h5 : d.LAST_PROCESSED_DATETIME.isStr = false)
    (h6 : d.LAST_FIXED_DATETIME.isStr = false) :
    coerceDatetimes d = .ok d := by
  simp only [coerceDatetimes, dtCoerceVal_of_not_str _ h1, dtCoerceVal_of_not_str _ h2,
    dtCoerceVal_of_not_str _ h3, dtCoerceVal_of_not_str _ h4,
    dtCoerceVal_of_not_str _ h5, dtCoerceVal_of_not_str _ h6]
  rfl

/-- C1: when the parsed response carries only the generic SIMPLE_RETURN
envelope (no REPORT_LIST key), `get_report_list` does not raise the typed
vendor soft-failure error: it fails with a KeyError on the missing
REPORT_LIST_OUTPUT key, because it subscripts the success path without any
envelope check. The sibling `get_template_list` implements the intended
behaviour and raises QualysAPIError with the envelope text; on the concrete
scenario text the divergence is exact. -/
theorem C1_report_list_missing_envelope_guard (t : PyVal) :
    get_report_list_parse (simpleReturnEnv t) = .error (.keyError "REPORT_LIST_OUTPUT")
    ∧ get_template_list_parse (simpleReturnEnv t) = .error (.qualysAPIError t)
    ∧ get_report_list_parse (simpleReturnEnv (.str "No reports matched your search criteria."))
        = .error (.keyError "REPORT_LIST_OUTPUT")
    ∧ get_template_list_parse (simpleReturnEnv (.str "No reports matched your search criteria."))
        = .error (.qualysAPIError (.str "No reports matched your search criteria.")) :=
  ⟨rfl, rfl, rfl, rfl⟩

/-- The scenario-A input mapping of the spec: the four documented keys plus
a QDS attribute/text pair, with no UNIQUE_VULN_ID. -/
def scenarioA : List (String × PyVal) :=
  [("QID", .str "12345"), ("SEVERITY", .str "3"), ("STATUS", .str "Active"),
   ("TYPE", .str "Confirmed"),
   ("QDS", .dict [("@severity", .str "2"), ("#text", .str "45")])]

/-- C3 counterexample: constructing from the scenario-A mapping does not
succeed — `from_dict` accepts the mapping (its required-key check covers only
QID, SEVERITY, STATUS and TYPE) but the generated constructor then fails
with a TypeError because the defaultless UNIQUE_VULN_ID field is missing. -/
theorem C3_scenarioA_fails_missing_unique_vuln_id :
    Detection.from_dict scenarioA
      = .error (.typeError "Detection __init__ missing required argument: UNIQUE_VULN_ID") :=
  rfl

/-- The record that scenario A produces once UNIQUE_VULN_ID is supplied. -/
def scenarioARecord : Detection :=
  { UNIQUE_VULN_ID := .int 1, QID := .int 12345, TYPE := .str "Confirmed",
    SEVERITY := .int 3, STATUS := .str "Active", SSL := .bool false,
    RESULTS := .str "", FIRST_FOUND_DATETIME := .none,
    LAST_FOUND_DATETIME := .none, QDS := .qds (.str "2") 45,
    QDS_FACTORS := .none, TIMES_FOUND := .int 0, LAST_TEST_DATETIME := .none,
    LAST_UPDATE_DATETIME := .none, IS_IGNORED := .bool false,
    IS_DISABLED := .bool false, LAST_PROCESSED_DATETIME := .none,
    LAST_FIXED_DATETIME := .none, PORT := .none, PROTOCOL := .none,
    FQDN := .none }

/-- C3 (amended): the scenario-A construction raises TypeError for the
missing UNIQUE_VULN_ID; with UNIQUE_VULN_ID supplied as well, `from_dict`
succeeds and yields integer QID 12345, integer SEVERITY 3, a QDS value with
severity string 2 and score 45, and every other optional field at its
declared default. -/
theorem C3_scenarioA_with_unique_vuln_id :
    Detection.from_dict (("UNIQUE_VULN_ID", PyVal.str "1") :: scenarioA)
      = .ok scenarioARecord :=
  rfl

/-- An input mapping carrying exactly the four keys `from_dict` checks for,
but not the required UNIQUE_VULN_ID field. -/
def dataMissingUVI : List (String × PyVal) :=
  [("QID", .str "10"), ("SEVERITY", .str "5"), ("STATUS", .str "New"),
   ("TYPE", .str "Potential")]

/-- C4 counterexample: a mapping missing the required UNIQUE_VULN_ID field
passes the `from_dict` schema check unchallenged and fails instead with the
constructor TypeError, not with the schema-validation ValueError the claim
describes. -/
theorem C4_missing_required_field_not_schema_checked :
    Detection.from_dict dataMissingUVI
      = .error (.typeError "Detection __init__ missing required argument: UNIQUE_VULN_ID") :=
  rfl

/-- C4 (amended): a mapping missing any of QID, SEVERITY, STATUS or TYPE is
rejected by `from_dict` with the ValueError that lists the full four-key
required set (not specifically the missing keys); a mapping missing only
UNIQUE_VULN_ID instead reaches the constructor and fails there with a
TypeError. In both cases construction fails outright and no record is
returned. -/
theorem C4_from_dict_validation (data : List (String × PyVal))
    (h : fromDictRequiredKeys.all (hasKeyD data) = false) :
    Detection.from_dict data = .error (.valueError fromDictErrMsg)
    ∧ Detection.from_dict dataMissingUVI
        = .error (.typeError "Detection __init__ missing required argument: UNIQUE_VULN_ID") := by
  constructor
  · simp [Detection.from_dict, h]
  · rfl

/-- C4 witness: the empty mapping misses every required key and is rejected
with the ValueError. -/
theorem C4_from_dict_validation_witness :
    fromDictRequiredKeys.all (hasKeyD []) = false
    ∧ (Detection.from_dict [] = .error (.valueError fromDictErrMsg)
       ∧ Detection.from_dict dataMissingUVI
           = .error (.typeError "Detection __init__ missing required argument: UNIQUE_VULN_ID")) :=
  ⟨by decide, C4_from_dict_validation [] (by decide)⟩

/-- C5 counterexample: the documented action `cancel` is not dispatched to
any (module, endpoint) pair — it raises NotImplementedError. -/
theorem C5_cancel_not_dispatched :
    manage_reports "cancel" [] =
      .error (.notImplementedError "Action cancel is not implemented yet.") :=
  rfl

/-- C5 (amended): of the five documented actions only `list` and `launch`
are dispatched — `list` to the vmdr `get_report_list` endpoint with the
augmented bag as query parameters, `launch` to the vmdr `launch_report`
endpoint with the augmented bag as body payload — while every other action,
including the documented `cancel`, `fetch` and `delete`, raises
NotImplementedError rather than being silently ignored or forwarded. -/
theorem C5_dispatch_list_launch_only (kwargs : List (String × PyVal)) :
    manage_reports "list" kwargs
      = .ok { module := "vmdr", endpoint := "get_report_list",
              params := some (setItemD (setItemD kwargs "action" (.str "list"))
                "echo_request" (.bool false)),
              payload := Option.none, headers := sdkHeaders }
    ∧ manage_reports "launch" kwargs
      = .ok { module := "vmdr", endpoint := "launch_report",
              params := Option.none,
              payload := some (setItemD (setItemD kwargs "action" (.str "launch"))
                "echo_request" (.bool false)),
              headers := sdkHeaders }
    ∧ ∀ a : String, a ≠ "list" → a ≠ "launch" →
        manage_reports a kwargs
          = .error (.notImplementedError ("Action " ++ a ++ " is not implemented yet.")) := by
  refine ⟨rfl, rfl, ?_⟩
  intro a h1 h2
  unfold manage_reports
  rw [if_neg h1, if_neg h2]

/-- C5 witness: with an empty bag, the two dispatched actions produce their
fixed requests and the documented action `fetch` raises
NotImplementedError. -/
theorem C5_dispatch_witness :
    manage_reports "fetch" [] =
      .error (.notImplementedError "Action fetch is not implemented yet.") :=
  (C5_dispatch_list_launch_only []).2.2 "fetch" (by decide) (by decide)

/-- C8: the dispatch layer does not force the header-suppression flag
`hide_header`: a caller-supplied `hide_header = False` survives into the
outgoing `launch_report` payload unchanged (the docstring states the SDK
auto-sets it to True), and a call that omits it produces a payload with no
`hide_header` entry at all. What the code does force — overriding the
caller — is `echo_request = False`. -/
theorem C8_hide_header_not_forced :
    launch_report_request (.int 5) [("hide_header", .bool false), ("echo_request", .bool true)]
      = .ok { module := "vmdr", endpoint := "launch_report", params := Option.none,
              payload := some [("hide_header", .bool false), ("echo_request", .bool false),
                               ("template_id", .int 5), ("action", .str "launch")],
              headers := sdkHeaders }
    ∧ launch_report_request (.int 5) []
      = .ok { module := "vmdr", endpoint := "launch_report", params := Option.none,
              payload := some [("template_id", .int 5), ("action", .str "launch"),
                               ("echo_request", .bool false)],
              headers := sdkHeaders } :=
  ⟨rfl, rfl⟩

mutual

/-- Python `==` is reflexive on the embedded values. -/
theorem pyEq_refl : ∀ x : PyVal, pyEq x x = true
  | .none => rfl
  | .bool b => by simp [pyEq]
  | .int n => by simp [pyEq]
  | .str s => by simp [pyEq]
  | .datetime s => by simp [pyEq]
  | .qds a n => by simp [pyEq, pyEq_refl a]
  | .qdsFactor a b => by simp [pyEq, pyEq_refl a, pyEq_refl b]
  | .list l => by simp [pyEq, pyEqList_refl l]
  | .dict d => by simp [pyEq, pyEqDict_refl d]

/-- Elementwise `==` is reflexive. -/
theorem pyEqList_refl : ∀ l : List PyVal, pyEqList l l = true
  | [] => rfl
  | x :: xs => by simp [pyEqList, pyEq_refl x, pyEqList_refl xs]

/-- Entrywise `==` is reflexive. -/
theorem pyEqDict_refl : ∀ d : List (String × PyVal), pyEqDict d d = true
  | [] => rfl
  | (k, x) :: xs => by simp [pyEqDict, pyEq_refl x, pyEqDict_refl xs]

end

/-- A pair of detections agreeing on QID and SEVERITY but differing in TYPE:
the first of the two, declared as the source would construct them. -/
def detConfirmed : Detection :=
  { UNIQUE_VULN_ID := .int 11, QID := .int 7, TYPE := .str "Confirmed",
    SEVERITY := .int 3, STATUS := .str "Active", SSL := .bool false,
    RESULTS := .str "", FIRST_FOUND_DATETIME := .none,
    LAST_FOUND_DATETIME := .none, QDS := .none, QDS_FACTORS := .none,
    TIMES_FOUND := .int 1, LAST_TEST_DATETIME := .none,
    LAST_UPDATE_DATETIME := .none, IS_IGNORED := .bool false,
    IS_DISABLED := .bool false, LAST_PROCESSED_DATETIME := .none,
    LAST_FIXED_DATETIME := .none, PORT := .none, PROTOCOL := .none,
    FQDN := .none }

/-- The second: same QID 7 and SEVERITY 3, but TYPE Potential (and different
auxiliary fields, which the comparison ignores). -/
def detPotential : Detection :=
  { detConfirmed with
    TYPE := .str "Potential"
    UNIQUE_VULN_ID := .int 99
    STATUS := .str "Fixed"
    TIMES_FOUND := .int 5 }

/-- C2 counterexample: two detections agreeing on QID and SEVERITY do not
compare equal when TYPE differs — TYPE is a third comparison field (it is
not marked `compare=False`), so equality fails and the ordering separates
them in both directions. -/
theorem C2_type_breaks_qid_severity_equality :
    Detection.pyEqDet detConfirmed detPotential = false
    ∧ Detection.pyLtDet detConfirmed detPotential = .ok true
    ∧ Detection.pyLtDet detPotential detConfirmed = .ok false :=
  ⟨rfl, rfl, rfl⟩

/-- C2 (amended): dataclass equality and ordering of Detection are
determined exactly by the tuple (QID, TYPE, SEVERITY) in declaration order —
two detections agreeing on those three fields compare equal and order
identically against any third detection, regardless of UNIQUE_VULN_ID,
STATUS, timestamps, counts, text and every other field, all of which are
marked `compare=False`. -/
theorem C2_eq_ordering_by_qid_type_severity (a b : Detection)
    (hq : a.QID = b.QID) (ht : a.TYPE = b.TYPE) (hs : a.SEVERITY = b.SEVERITY) :
    Detection.pyEqDet a b = true
    ∧ ∀ c : Detection,
        Detection.pyLtDet a c = Detection.pyLtDet b c
        ∧ Detection.pyLtDet c a = Detection.pyLtDet c b := by
  have hk : Detection.cmpKey a = Detection.cmpKey b := by
    simp [Detection.cmpKey, hq, ht, hs]
  refine ⟨?_, fun c => ⟨?_, ?_⟩⟩
  · simp [Detection.pyEqDet, Detection.cmpKey, pyEqList, hq, ht, hs,
      pyEq_refl, pyEqList_refl]
  · simp [Detection.pyLtDet, hk]
  · simp [Detection.pyLtDet, hk]

/-- A detection sharing QID, TYPE and SEVERITY with `detConfirmed` while
differing in UNIQUE_VULN_ID, STATUS and TIMES_FOUND. -/
def detConfirmedTwin : Detection :=
  { detConfirmed with
    UNIQUE_VULN_ID := .int 500
    STATUS := .str "Re-Opened"
    TIMES_FOUND := .int 9 }

/-- C2 witness: two concrete detections agreeing on QID, TYPE and SEVERITY
while differing in UNIQUE_VULN_ID, STATUS and TIMES_FOUND compare equal and
order identically. -/
theorem C2_eq_ordering_witness :
    Detection.pyEqDet detConfirmed detConfirmedTwin = true
    ∧ ∀ c : Detection,
        Detection.pyLtDet detConfirmed c = Detection.pyLtDet detConfirmedTwin c
        ∧ Detection.pyLtDet c detConfirmed = Detection.pyLtDet c detConfirmedTwin :=
  C2_eq_ordering_by_qid_type_severity detConfirmed detConfirmedTwin rfl rfl rfl

/-- Binding a successful Except value reduces to the continuation. -/
theorem bindOkPy {α β : Type} (x : α) (f : α → Except PyErr β) :
    (Except.ok x >>= f) = f x :=
  rfl

/-- Binding a failed Except value propagates the error. -/
theorem bindErrPy {α β : Type} (e : PyErr) (f : α → Except PyErr β) :
    ((Except.error e : Except PyErr α) >>= f) = Except.error e :=
  rfl

/-- The spec scenario-C factors node with two factors in list order A, B. -/
def factorsTwoNode : PyVal :=
  .dict [("QDS_FACTOR",
    .list [.dict [("@name", .str "A"), ("#text", .str "1")],
           .dict [("@name", .str "B"), ("#text", .str "2")]])]

/-- The same node with a single bare (non-list) factor mapping. -/
def factorsOneNode : PyVal :=
  .dict [("QDS_FACTOR", .dict [("@name", .str "A"), ("#text", .str "1")])]

/-- C6: singular/plural idempotence of list-typed normalization. Inside
records, a QDS_FACTORS node carrying one bare factor mapping normalizes to
exactly what the same node with the mapping wrapped in a one-element list
normalizes to; the scenario-C node with factors A, B yields the two factor
records in list order, and the single bare mapping yields a one-element
list. At the top level, `get_report_list` produces the same collection for a
bare single REPORT mapping as for its one-element-list wrapping. -/
theorem C6_singular_plural_idempotence
    (entries : List (String × PyVal)) (r : List (String × PyVal)) :
    convertFactorsNode (.dict [("QDS_FACTOR", .dict entries)])
      = convertFactorsNode (.dict [("QDS_FACTOR", .list [.dict entries])])
    ∧ convertFactorsNode factorsTwoNode
      = .ok (.list [.qdsFactor (.str "A") (.str "1"), .qdsFactor (.str "B") (.str "2")])
    ∧ convertFactorsNode factorsOneNode
      = .ok (.list [.qdsFactor (.str "A") (.str "1")])
    ∧ get_report_list_parse (reportListEnv (.dict r))
      = get_report_list_parse (reportListEnv (.list [.dict r])) := by
  refine ⟨?_, rfl, rfl, rfl⟩
  cases h1 : pyGet (PyVal.dict entries) "@name" <;>
    cases h2 : pyGet (PyVal.dict entries) "#text" <;>
      simp [convertFactorsNode, pyTruthy, pyGet, lookupD, h1, h2,
        List.mapM, List.mapM.loop, bindOkPy, bindErrPy]

/-- A SIMPLE_RETURN envelope whose RESPONSE mapping holds the given
entries. -/
def simpleReturnWith (resp : List (String × PyVal)) : PyVal :=
  .dict [("SIMPLE_RETURN", .dict [("RESPONSE", .dict resp)])]

/-- C7: when the parsed launch response is a structurally-successful
SIMPLE_RETURN envelope whose ITEM_LIST → ITEM → VALUE chain carries the new
resource identifier, `launch_report` returns that identifier converted to an
integer; when the RESPONSE mapping has no ITEM_LIST key at all but carries a
TEXT message, the call raises QualysAPIError with exactly that message
instead of returning. -/
theorem C7_launch_identifier_or_soft_failure
    (v t : PyVal) (n : Int) (rest : List (String × PyVal)) :
    (pyIntOf v = .ok n →
      launch_report_parse (simpleReturnWith
        (("ITEM_LIST", .dict [("ITEM", .dict [("VALUE", v)])]) :: rest)) = .ok n)
    ∧ (lookupD rest "ITEM_LIST" = Option.none → lookupD rest "TEXT" = some t →
        launch_report_parse (simpleReturnWith rest) = .error (.qualysAPIError t)) := by
  constructor
  · intro h
    simp [launch_report_parse, simpleReturnWith, pyGet, lookupD, h, bindOkPy]
  · intro h1 h2
    simp [launch_report_parse, simpleReturnWith, pyGet, lookupD, h1, h2, bindOkPy, bindErrPy]

/-- C7 witness: a concrete envelope with VALUE 987 returns 987, and a
concrete envelope with only a TEXT message raises QualysAPIError carrying
it. -/
theorem C7_launch_witness :
    pyIntOf (.str "987") = .ok 987
    ∧ lookupD [("TEXT", PyVal.str "Missing required parameter")] "ITEM_LIST" = Option.none
    ∧ lookupD [("TEXT", PyVal.str "Missing required parameter")] "TEXT"
        = some (PyVal.str "Missing required parameter")
    ∧ launch_report_parse (simpleReturnWith
        [("ITEM_LIST", .dict [("ITEM", .dict [("VALUE", .str "987")])])]) = .ok 987
    ∧ launch_report_parse (simpleReturnWith [("TEXT", .str "Missing required parameter")])
        = .error (.qualysAPIError (.str "Missing required parameter")) :=
  ⟨rfl, rfl, rfl,
   (C7_launch_identifier_or_soft_failure (.str "987") (.str "Missing required parameter")
      987 []).1 rfl,
   (C7_launch_identifier_or_soft_failure (.str "987") (.str "Missing required parameter")
      987 [("TEXT", .str "Missing required parameter")]).2 rfl rfl⟩

/-- The markup loop is the identity on a record whose RESULTS survives the
stripper unchanged. -/
theorem coerceHtml_id (e : Detection) (h : bs4GetText e.RESULTS = .ok e.RESULTS) :
    coerceHtml e = .ok e := by
  simp only [coerceHtml, h, bindOkPy]
  rfl

/-- The bool loop is the identity when each of the three flag fields passes
through its guard unchanged. -/
theorem coerceBools_id (e : Detection)
    (b1 : boolCoerceVal e.IS_IGNORED = e.IS_IGNORED)
    (b2 : boolCoerceVal e.IS_DISABLED = e.IS_DISABLED)
    (b3 : boolCoerceVal e.SSL = e.SSL) :
    coerceBools e = e := by
  simp only [coerceBools, b1, b2, b3]

/-- The int loop is the identity when each of the five numeric fields passes
through its guard unchanged. -/
theorem coerceInts_id (e : Detection)
    (i1 : intCoerceVal e.UNIQUE_VULN_ID = .ok e.UNIQUE_VULN_ID)
    (i2 : intCoerceVal e.QID = .ok e.QID)
    (i3 : intCoerceVal e.SEVERITY = .ok e.SEVERITY)
    (i4 : intCoerceVal e.TIMES_FOUND = .ok e.TIMES_FOUND)
    (i5 : intCoerceVal e.PORT = .ok e.PORT) :
    coerceInts e = .ok e := by
  simp only [coerceInts, i1, i2, i3, i4, i5, bindOkPy]
  rfl

/-- The QDS step is the identity on a record whose QDS field is falsy. -/
theorem coerceQDS_id (e : Detection) (h : pyTruthy e.QDS = false) :
    coerceQDS e = .ok e := by
  simp only [coerceQDS, convertQDSNode, h, Bool.false_eq_true, if_false, bindOkPy]
  rfl

/-- The QDS_FACTORS step is the identity on a record whose QDS_FACTORS field
is falsy. -/
theorem coerceQDSFactors_id (e : Detection) (h : pyTruthy e.QDS_FACTORS = false) :
    coerceQDSFactors e = .ok e := by
  simp only [coerceQDSFactors, convertFactorsNode, h, Bool.false_eq_true, if_false, bindOkPy]
  rfl

/-- `__post_init__` is the identity on a record every coercion step leaves
unchanged. -/
theorem postInit_id (e : Detection)
    (k1 : coerceDatetimes e = .ok e)
    (k2 : coerceHtml e = .ok e)
    (k3 : coerceBools e = e)
    (k4 : coerceInts e = .ok e)
    (k5 : coerceQDS e = .ok e)
    (k6 : coerceQDSFactors e = .ok e) :
    Detection.postInit e = .ok e := by
  simp only [Detection.postInit, k1, k2, k3, k4, k5, k6, bindOkPy]

/-- A fully-populated normalized detection: every optional field carries
information (ports, protocol, FQDN, datetimes, result text). Its QDS and
QDS_FACTORS are unset, which is the shape on which `copy` re-runs
`__post_init__` without re-entering the attribute/text conversion paths. -/
def detFull : Detection :=
  { UNIQUE_VULN_ID := .int 1, QID := .int 100, TYPE := .str "Confirmed",
    SEVERITY := .int 4, STATUS := .str "Active", SSL := .bool true,
    RESULTS := .str "result text",
    FIRST_FOUND_DATETIME := .datetime "2024-01-01T00:00:00",
    LAST_FOUND_DATETIME := .datetime "2024-01-02T00:00:00",
    QDS := .none, QDS_FACTORS := .none, TIMES_FOUND := .int 3,
    LAST_TEST_DATETIME := .datetime "2024-01-03T00:00:00",
    LAST_UPDATE_DATETIME := .datetime "2024-01-04T00:00:00",
    IS_IGNORED := .bool false, IS_DISABLED := .bool false,
    LAST_PROCESSED_DATETIME := .datetime "2024-01-05T00:00:00",
    LAST_FIXED_DATETIME := .none, PORT := .int 443, PROTOCOL := .str "tcp",
    FQDN := .str "host.example.com" }

/-- The copy of `detFull`: identical except that FQDN is reset to None. -/
def detFullCopy : Detection :=
  { detFull with FQDN := PyVal.none }

/-- C9 counterexample: on a fully-populated record, the deep copy succeeds
and the set of fields on which it differs from the original is exactly the
single field FQDN — not several fields. Every other field, including the
protocol-adjacent PORT and PROTOCOL, is carried over equal. -/
theorem C9_copy_differs_only_in_fqdn :
    Detection.copy detFull = .ok detFullCopy
    ∧ Detection.diffFields detFull detFullCopy = ["FQDN"] :=
  ⟨rfl, rfl⟩

/-- C9 (amended): the deep-copy operation omits exactly one optional field —
FQDN, which is present in the canonical field set and in the `to_dict`
output but absent from the constructor call `copy` makes, so it takes its
declared default None in the copy. On every normalized record whose QDS and
QDS_FACTORS are unset, all twenty remaining fields are carried over equal to
the original. -/
theorem C9_copy_omits_exactly_fqdn (d : Detection)
    (h1 : d.FIRST_FOUND_DATETIME.isStr = false)
    (h2 : d.LAST_FOUND_DATETIME.isStr = false)
    (h3 : d.LAST_TEST_DATETIME.isStr = false)
    (h4 : d.LAST_UPDATE_DATETIME.isStr = false)
    (h5 : d.LAST_PROCESSED_DATETIME.isStr = false)
    (h6 : d.LAST_FIXED_DATETIME.isStr = false)
    (hres : bs4GetText d.RESULTS = .ok d.RESULTS)
    (hb1 : boolCoerceVal d.IS_IGNORED = d.IS_IGNORED)
    (hb2 : boolCoerceVal d.IS_DISABLED = d.IS_DISABLED)
    (hb3 : boolCoerceVal d.SSL = d.SSL)
    (hi1 : intCoerceVal d.UNIQUE_VULN_ID = .ok d.UNIQUE_VULN_ID)
    (hi2 : intCoerceVal d.QID = .ok d.QID)
    (hi3 : intCoerceVal d.SEVERITY = .ok d.SEVERITY)
    (hi4 : intCoerceVal d.TIMES_FOUND = .ok d.TIMES_FOUND)
    (hi5 : intCoerceVal d.PORT = .ok d.PORT)
    (hq : pyTruthy d.QDS = false)
    (hf : pyTruthy d.QDS_FACTORS = false) :
    Detection.copy d = .ok { d with FQDN := PyVal.none } := by
  unfold Detection.copy
  exact postInit_id _ (coerceDatetimes_id _ h1 h2 h3 h4 h5 h6)
    (coerceHtml_id _ hres) (coerceBools_id _ hb1 hb2 hb3)
    (coerceInts_id _ hi1 hi2 hi3 hi4 hi5) (coerceQDS_id _ hq)
    (coerceQDSFactors_id _ hf)

/-- C9 witness: the amended copy theorem applied to the fully-populated
record, every normalization hypothesis discharged by computation. -/
theorem C9_copy_omits_exactly_fqdn_witness :
    Detection.copy detFull = .ok { detFull with FQDN := PyVal.none } :=
  C9_copy_omits_exactly_fqdn detFull rfl rfl rfl rfl rfl rfl rfl rfl rfl rfl
    rfl rfl rfl rfl rfl rfl rfl

/-- A minimal keyword bag that sets RESULTS explicitly to None. -/
def kwResultsNone : List (String × PyVal) :=
  [("UNIQUE_VULN_ID", .str "1"), ("QID", .str "2"), ("TYPE", .str "Confirmed"),
   ("SEVERITY", .str "3"), ("STATUS", .str "Active"), ("RESULTS", PyVal.none)]

/-- C10: constructing a Detection with RESULTS explicitly set to None raises
TypeError — the markup-stripping coercion is applied to RESULTS
unconditionally, so the stripper receives None and fails — while each of the
other coercion categories guards None through unchanged (bool loop, int
loop, datetime loop). The concrete constructor call with RESULTS = None
raises the same TypeError. -/
theorem C10_results_none_raises (d : Detection)
    (h1 : d.FIRST_FOUND_DATETIME.isStr = false)
    (h2 : d.LAST_FOUND_DATETIME.isStr = false)
    (h3 : d.LAST_TEST_DATETIME.isStr = false)
    (h4 : d.LAST_UPDATE_DATETIME.isStr = false)
    (h5 : d.LAST_PROCESSED_DATETIME.isStr = false)
    (h6 : d.LAST_FIXED_DATETIME.isStr = false)
    (hr : d.RESULTS = PyVal.none) :
    Detection.postInit d = .error (.typeError "object of type NoneType has no len()")
    ∧ boolCoerceVal PyVal.none = PyVal.none
    ∧ intCoerceVal PyVal.none = .ok PyVal.none
    ∧ dtCoerceVal PyVal.none = .ok PyVal.none
    ∧ Detection.init kwResultsNone
        = .error (.typeError "object of type NoneType has no len()") := by
  refine ⟨?_, rfl, rfl, rfl, rfl⟩
  simp [Detection.postInit, coerceDatetimes_id d h1 h2 h3 h4 h5 h6, bindOkPy,
    coerceHtml, hr, bs4GetText, bindErrPy]

/-- C10 witness: the theorem applied to a concrete record whose RESULTS is
None, every hypothesis discharged by computation. -/
theorem C10_results_none_raises_witness :
    Detection.postInit { scenarioARecord with RESULTS := PyVal.none }
        = .error (.typeError "object of type NoneType has no len()")
    ∧ boolCoerceVal PyVal.none = PyVal.none
    ∧ intCoerceVal PyVal.none = .ok PyVal.none
    ∧ dtCoerceVal PyVal.none = .ok PyVal.none
    ∧ Detection.init kwResultsNone
        = .error (.typeError "object of type NoneType has no len()") :=
  C10_results_none_raises { scenarioARecord with RESULTS := PyVal.none }
    rfl rfl rfl rfl rfl rfl rfl
